import Mathlib

/-!
Verification of the radial-velocity orbital-parameter estimation engine
specified for this repository.  The repository ships two tutorial notebooks
that exercise the `radial` engine; the engine itself is not part of the
sources, so its components (Orbit Kernel, Composite Model, Estimation
Engine, Result Summarizer) are modelled here from the specification, while
the notebook function compute_k is embedded from the notebook source.
All numerics are embedded over the real numbers.
-/

open Classical

/-- Orbital parameters of one companion: RV semi-amplitude k, orbital
period, eccentricity, argument of periapse omega, epoch of periapse t0. -/
structure OrbitalParameters where
  k : ℝ
  period : ℝ
  ecc : ℝ
  omega : ℝ
  t0 : ℝ

/-- Modelled from the spec: mean anomaly M = 2*pi*(t - t0)/period reduced
to [0, 2*pi), realized as 2*pi times the fractional part of the phase. -/
noncomputable def meanAnomaly (p : OrbitalParameters) (t : ℝ) : ℝ :=
  2 * Real.pi * Int.fract ((t - p.t0) / p.period)

/-- Modelled from the spec: fixed tolerance of the Kepler solver. -/
noncomputable def keplerTol : ℝ := 1e-10

/-- Modelled from the spec: maximum Newton-Raphson iteration count of the
Kepler solver. -/
def keplerMaxIter : ℕ := 100

/-- Modelled from the spec: one Newton-Raphson step for Kepler's equation
M = E - e*sin E, using the derivative 1 - e*cos E. -/
noncomputable def newtonStep (e M E : ℝ) : ℝ :=
  E - (E - e * Real.sin E - M) / (1 - e * Real.cos E)

/-- Modelled from the spec: n rounds of the Kepler Newton-Raphson
iteration from the initial guess E0 = M; once the residual of Kepler's
equation is below the tolerance the estimate is kept unchanged. -/
noncomputable def keplerIter (e M : ℝ) : ℕ → ℝ
  | 0 => M
  | n + 1 =>
    let E := keplerIter e M n
    if |M - (E - e * Real.sin E)| < keplerTol then E else newtonStep e M E

/-- Modelled from the spec: the Kepler solver returns the estimate after at
most keplerMaxIter Newton-Raphson rounds (the best estimate at the cap). -/
noncomputable def keplerSolve (e M : ℝ) : ℝ :=
  keplerIter e M keplerMaxIter

/-- Modelled from the spec: true anomaly from eccentric anomaly via the
standard half-angle relation. -/
noncomputable def trueAnomaly (e E : ℝ) : ℝ :=
  2 * Real.arctan (Real.sqrt ((1 + e) / (1 - e)) * Real.tan (E / 2))

/-- Modelled from the spec: the Orbit Kernel.  Predicted radial velocity of
one companion at time t: v = k*(cos(nu + omega) + e*cos omega), where for
e = 0 the fast path nu = M is taken with no iteration, and otherwise nu is
obtained from the Kepler solver through the half-angle relation. -/
noncomputable def radialVelocity (p : OrbitalParameters) (t : ℝ) : ℝ :=
  let M := meanAnomaly p t
  let ν := if p.ecc = 0 then M else trueAnomaly p.ecc (keplerSolve p.ecc M)
  p.k * (Real.cos (ν + p.omega) + p.ecc * Real.cos p.omega)

/-- One radial-velocity observation: a (time, rv, uncertainty) triple. -/
structure Observation where
  time : ℝ
  rv : ℝ
  unc : ℝ

/-- Modelled from the spec: an RVDataSet exposes an ordered read-only view
of (time, rv, uncertainty) triples. -/
structure RVDataSet where
  obs : List Observation

/-- Modelled from the spec: a ParameterVector is one OrbitalParameters
block per companion plus one gamma offset per dataset. -/
structure ParameterVector where
  companions : List OrbitalParameters
  gammas : List ℝ

/-- Modelled from the spec: the Composite Model residual of one
observation of dataset d: observed rv minus the gamma of that dataset
minus the sum of the Orbit Kernel contributions of all companions. -/
noncomputable def rvResidual (pv : ParameterVector) (d : ℕ) (o : Observation) : ℝ :=
  o.rv - pv.gammas.getD d 0 -
    (pv.companions.map (fun c => radialVelocity c o.time)).sum

/-- Modelled from the spec: the vector of uncertainty-weighted residuals,
one entry per observation, datasets in order. -/
noncomputable def weightedResiduals (pv : ParameterVector)
    (datasets : List RVDataSet) : List ℝ :=
  (datasets.enum.map (fun p =>
    p.2.obs.map (fun o => rvResidual pv p.1 o / o.unc))).flatten

/-- Modelled from the spec: chi-square, the sum of the squared weighted
residuals; the sole objective handed to the Estimation Engine. -/
noncomputable def chiSquare (pv : ParameterVector)
    (datasets : List RVDataSet) : ℝ :=
  ((weightedResiduals pv datasets).map (fun r => r ^ 2)).sum

/-- The circular test fixture of the spec: period 2, e = 0, t0 = 0,
omega = 0, k = 10. -/
def circularFixture : OrbitalParameters :=
  ⟨10, 2, 0, 0, 0⟩

/-- On the circular fast path the Orbit Kernel is k*cos(M + omega)
plus the vanishing e*cos omega term. -/
theorem radialVelocity_ecc_zero (p : OrbitalParameters) (t : ℝ) (h : p.ecc = 0) :
    radialVelocity p t = p.k * Real.cos (meanAnomaly p t + p.omega) := by
  simp [radialVelocity, h]

/-- The mean anomaly vanishes at t = 0 when the periapse epoch is 0. -/
theorem meanAnomaly_t0_zero (p : OrbitalParameters) (h : p.t0 = 0) :
    meanAnomaly p 0 = 0 := by
  simp [meanAnomaly, h]

/-- A circular companion with t0 = 0 and omega = 0 contributes exactly k
at time 0. -/
theorem radialVelocity_circular_at_zero (p : OrbitalParameters)
    (he : p.ecc = 0) (ht : p.t0 = 0) (hw : p.omega = 0) :
    radialVelocity p 0 = p.k := by
  rw [radialVelocity_ecc_zero p 0 he, meanAnomaly_t0_zero p ht, hw]
  simp

theorem meanAnomaly_circularFixture_zero : meanAnomaly circularFixture 0 = 0 := by
  simp [meanAnomaly, circularFixture]

theorem meanAnomaly_circularFixture_one : meanAnomaly circularFixture 1 = Real.pi := by
  have h : Int.fract ((1 : ℝ) / 2) = 1 / 2 := by
    rw [Int.fract_eq_self]
    constructor <;> norm_num
  simp only [meanAnomaly, circularFixture, sub_zero]
  rw [h]
  ring

theorem meanAnomaly_circularFixture_two : meanAnomaly circularFixture 2 = 0 := by
  have h : ((2 : ℝ) - 0) / 2 = 1 := by norm_num
  simp only [meanAnomaly, circularFixture, h, Int.fract_one, mul_zero]

/-- C1: for every OrbitalParameters with eccentricity 0 and every time t,
the Orbit Kernel returns exactly k*cos(M + omega) with M the reduced mean
anomaly; in particular the circular fixture (period 2, e = 0, t0 = 0,
omega = 0, k = 10) synthesizes exactly [10, -10, 10] at times [0, 1, 2]. -/
theorem orbit_kernel_circular_closed_form :
    (∀ (p : OrbitalParameters) (t : ℝ), p.ecc = 0 →
      radialVelocity p t = p.k * Real.cos (meanAnomaly p t + p.omega)) ∧
    radialVelocity circularFixture 0 = 10 ∧
    radialVelocity circularFixture 1 = -10 ∧
    radialVelocity circularFixture 2 = 10 := by
  have hmain := radialVelocity_ecc_zero
  refine ⟨fun p t h => hmain p t h, ?_, ?_, ?_⟩
  · rw [hmain circularFixture 0 rfl, meanAnomaly_circularFixture_zero]
    simp [circularFixture]
  · rw [hmain circularFixture 1 rfl, meanAnomaly_circularFixture_one]
    simp [circularFixture]
  · rw [hmain circularFixture 2 rfl, meanAnomaly_circularFixture_two]
    simp [circularFixture]

/-- Witness for C1: the closed form applied to the circular fixture at
time 0, with the eccentricity hypothesis discharged by rfl. -/
theorem orbit_kernel_circular_closed_form_witness :
    radialVelocity circularFixture 0 =
      circularFixture.k * Real.cos (meanAnomaly circularFixture 0 + circularFixture.omega) :=
  orbit_kernel_circular_closed_form.1 circularFixture 0 rfl

/-- C2: for every ParameterVector and list of owned datasets, the
Composite Model residual of each observation is
observed_rv - gamma[dataset] - sum over companions of the Orbit Kernel,
and chi-square is the sum over all observations of
(residual/uncertainty)^2. -/
theorem composite_residual_chisquare_formula :
    (∀ (pv : ParameterVector) (d : ℕ) (o : Observation),
      rvResidual pv d o =
        o.rv - pv.gammas.getD d 0 -
          (pv.companions.map (fun c => radialVelocity c o.time)).sum) ∧
    (∀ (pv : ParameterVector) (datasets : List RVDataSet),
      chiSquare pv datasets =
        (datasets.enum.map (fun p =>
          (p.2.obs.map (fun o => (rvResidual pv p.1 o / o.unc) ^ 2)).sum)).sum) := by
  refine ⟨fun pv d o => rfl, fun pv datasets => ?_⟩
  simp only [chiSquare, weightedResiduals, List.map_flatten, List.map_map,
    List.sum_flatten]
  congr 1
  refine List.map_congr_left ?_
  intro p _
  simp only [Function.comp_apply, List.map_map]
  rfl

/-- Second companion used in the superposition counterexample:
k = 5, period 2, e = 0, t0 = 0, omega = 0. -/
def companionB : OrbitalParameters :=
  ⟨5, 2, 0, 0, 0⟩

/-- Observation at time 0 with rv 0 and unit uncertainty. -/
def obsZero : Observation :=
  ⟨0, 0, 1⟩

/-- C4 counterexample: with a nonzero gamma (here 5) the claimed identity
residual(A,B) = single_residual(A) + single_residual(B) - observed fails:
the left side is -20 while the right side is -25 (the gamma is subtracted
twice on the right). -/
theorem residual_superposition_counterexample :
    ¬ (rvResidual ⟨[circularFixture, companionB], [5]⟩ 0 obsZero =
        rvResidual ⟨[circularFixture], [5]⟩ 0 obsZero +
          rvResidual ⟨[companionB], [5]⟩ 0 obsZero - obsZero.rv) := by
  have hA : radialVelocity circularFixture 0 = 10 :=
    radialVelocity_circular_at_zero circularFixture rfl rfl rfl
  have hB : radialVelocity companionB 0 = 5 :=
    radialVelocity_circular_at_zero companionB rfl rfl rfl
  have h10 : circularFixture.k = 10 := rfl
  have h5 : companionB.k = 5 := rfl
  simp only [rvResidual, obsZero, List.map_cons, List.map_nil, List.sum_cons,
    List.sum_nil, hA, hB]
  norm_num

/-- C4 amended: the two-companion residual superposes linearly once the
gamma offset is counted only once: residual(A,B) equals
single_residual(A) + single_residual(B) - (observed - gamma). -/
theorem residual_superposition_amended (A B : OrbitalParameters)
    (g : List ℝ) (d : ℕ) (o : Observation) :
    rvResidual ⟨[A, B], g⟩ d o =
      rvResidual ⟨[A], g⟩ d o + rvResidual ⟨[B], g⟩ d o -
        (o.rv - g.getD d 0) := by
  simp only [rvResidual, List.map_cons, List.map_nil, List.sum_cons, List.sum_nil]
  ring

/-- Modelled from the spec: the conceptual gamma zero-point shift, applied
by adjusting the ParameterVector entry of dataset d, never the dataset. -/
def bumpGamma (pv : ParameterVector) (d : ℕ) (δ : ℝ) : ParameterVector :=
  ⟨pv.companions, pv.gammas.set d (pv.gammas.getD d 0 + δ)⟩

/-- C5: raising the gamma entry of a dataset by +5, everything else
unchanged, lowers every residual of that dataset by exactly 5. -/
theorem gamma_bump_shifts_residual (pv : ParameterVector) (d : ℕ)
    (o : Observation) (h : d < pv.gammas.length) :
    rvResidual (bumpGamma pv d 5) d o = rvResidual pv d o - 5 := by
  simp only [rvResidual, bumpGamma]
  rw [List.getD_eq_getElem?_getD, List.getElem?_set_self (by exact h),
    Option.getD_some]
  ring

/-- Witness for C5 at a concrete vector with one gamma entry. -/
theorem gamma_bump_shifts_residual_witness :
    rvResidual (bumpGamma ⟨[], [0]⟩ 0 5) 0 obsZero =
      rvResidual ⟨[], [0]⟩ 0 obsZero - 5 :=
  gamma_bump_shifts_residual ⟨[], [0]⟩ 0 obsZero (by simp)

/-- C6: the Orbit Kernel and the chi-square objective are deterministic
pure functions of their arguments: equal inputs give equal outputs. -/
theorem kernel_objective_deterministic :
    (∀ (p q : OrbitalParameters) (s t : ℝ), p = q → s = t →
      radialVelocity p s = radialVelocity q t) ∧
    (∀ (pv qv : ParameterVector) (ds es : List RVDataSet), pv = qv → ds = es →
      chiSquare pv ds = chiSquare qv es) :=
  ⟨fun p q s t hp ht => by rw [hp, ht], fun pv qv ds es hp hd => by rw [hp, hd]⟩

/-- Witness for C6: two syntactically equal evaluations of the kernel at
the circular fixture agree. -/
theorem kernel_objective_deterministic_witness :
    radialVelocity circularFixture 0 = radialVelocity circularFixture 0 :=
  kernel_objective_deterministic.1 circularFixture circularFixture 0 0 rfl rfl

/-- Outcome of one Metropolis proposal: accepted or rejected.  There is no
failure alternative: an out-of-bounds proposal is an ordinary rejection. -/
inductive ProposalOutcome
  | accept
  | reject

/-- Modelled from the spec: the physical prior bounds on a proposed
ParameterVector: every companion must have eccentricity in [0, 1) and a
positive period. -/
def withinPriors (pv : ParameterVector) : Prop :=
  ∀ c ∈ pv.companions, (0 ≤ c.ecc ∧ c.ecc < 1) ∧ 0 < c.period

/-- Number of Orbit Kernel evaluations one chi-square evaluation costs:
one per companion per observation. -/
def kernelEvalCount (pv : ParameterVector) (datasets : List RVDataSet) : ℕ :=
  pv.companions.length * (datasets.map (fun ds => ds.obs.length)).sum

/-- Modelled from the spec: the log-likelihood weight -1/2 chi-square. -/
noncomputable def logLikelihood (pv : ParameterVector)
    (datasets : List RVDataSet) : ℝ :=
  -(1 / 2) * chiSquare pv datasets

/-- Modelled from the spec: one Metropolis step of the posterior sampler.
A proposal outside the priors is rejected immediately: the walker keeps
its current position, the outcome is an ordinary rejection, and zero
Orbit Kernel evaluations are spent on the proposal.  Otherwise the
proposal is accepted exactly when the log of the uniform draw u lies
below the log-likelihood difference, at the cost of one chi-square
evaluation of the proposal.  The third component records the kernel
evaluations spent on the proposal. -/
noncomputable def metropolisStep (datasets : List RVDataSet)
    (current proposal : ParameterVector) (u : ℝ) :
    ProposalOutcome × ParameterVector × ℕ :=
  if withinPriors proposal then
    if Real.log u < logLikelihood proposal datasets - logLikelihood current datasets then
      (.accept, proposal, kernelEvalCount proposal datasets)
    else
      (.reject, current, kernelEvalCount proposal datasets)
  else
    (.reject, current, 0)

/-- C7: a proposal whose eccentricity lies outside [0,1) or period is
nonpositive is rejected immediately: the step returns an ordinary
rejection keeping the current position and spends zero Orbit Kernel
evaluations; the codomain of metropolisStep has no failure alternative,
so nothing is surfaced to the caller as an engine failure. -/
theorem invalid_prior_rejected_without_kernel_eval
    (datasets : List RVDataSet) (current proposal : ParameterVector)
    (u : ℝ) (h : ¬ withinPriors proposal) :
    metropolisStep datasets current proposal u =
      (ProposalOutcome.reject, current, 0) := by
  simp [metropolisStep, h]

/-- Witness for C7: a one-companion proposal with eccentricity 2 is
rejected against the current empty vector with zero kernel evaluations. -/
theorem invalid_prior_rejected_without_kernel_eval_witness :
    metropolisStep [] ⟨[], []⟩ ⟨[⟨10, 2, 2, 0, 0⟩], []⟩ 1 =
      (ProposalOutcome.reject, ⟨[], []⟩, 0) :=
  invalid_prior_rejected_without_kernel_eval [] ⟨[], []⟩
    ⟨[⟨10, 2, 2, 0, 0⟩], []⟩ 1
    (by
      intro h
      rcases h ⟨10, 2, 2, 0, 0⟩ (by simp) with ⟨⟨_, h2⟩, _⟩
      norm_num at h2)

/-- One posterior sample: the parameter values of one walker at one step. -/
abbrev Sample : Type := List ℝ

/-- Modelled from the spec: the fatal error taxonomy at the engine
boundary. -/
inductive EngineError
  | loadError
  | configurationError

/-- Modelled from the spec: burn-in removal and flattening of a
PosteriorChain, given walker-major per-step samples with nsteps steps per
walker.  If the burn-in is at least the number of steps no samples remain
and a ConfigurationError is raised; otherwise the first burnIn steps of
every walker are discarded and the remainder flattened across walkers. -/
def makeChains (nsteps : ℕ) (chain : List (List Sample)) (burnIn : ℕ) :
    Except EngineError (List Sample) :=
  if nsteps ≤ burnIn then .error .configurationError
  else .ok (chain.map (fun w => w.drop burnIn)).flatten

/-- C8: burn-in removal raises ConfigurationError exactly when the
burn-in is at least the number of steps per walker, and with burn-in 0
the flattened output keeps every sample of the chain. -/
theorem make_chains_burnin_spec :
    (∀ (nsteps : ℕ) (chain : List (List Sample)) (burnIn : ℕ),
      makeChains nsteps chain burnIn = .error .configurationError ↔
        nsteps ≤ burnIn) ∧
    (∀ (nsteps : ℕ) (chain : List (List Sample)), 0 < nsteps →
      makeChains nsteps chain 0 = .ok chain.flatten) := by
  constructor
  · intro nsteps chain burnIn
    by_cases h : nsteps ≤ burnIn <;> simp [makeChains, h]
  · intro nsteps chain h
    have hn : ¬ nsteps ≤ 0 := by omega
    simp [makeChains, hn]

/-- Witness for C8: a chain of one walker with three steps and burn-in 0
keeps all three samples. -/
theorem make_chains_burnin_spec_witness :
    makeChains 3 [[[(1 : ℝ)], [2], [3]]] 0 = .ok [[(1 : ℝ)], [2], [3]] :=
  (make_chains_burnin_spec.2 3 [[[(1 : ℝ)], [2], [3]]] (by norm_num)).trans
    (by simp)

/-- A raw file row, as read before any offset is applied. -/
structure RawRow where
  time : ℝ
  rv : ℝ
  unc : ℝ

/-- Modelled from the spec: the RV zero-point policy at load, either a
literal additive constant or subtracting the sample mean. -/
inductive RVOffsetPolicy
  | const (c : ℝ)
  | subtractMean

/-- Modelled from the spec: the rv offset a policy denotes on a given
list of rows. -/
noncomputable def rvOffsetValue (policy : RVOffsetPolicy)
    (rows : List RawRow) : ℝ :=
  match policy with
  | .const c => c
  | .subtractMean => (rows.map RawRow.rv).sum / rows.length

/-- Modelled from the spec: dataset construction.  The constant t_offset
is added to every time value and the rv offset subtracted from every rv
at load; the resulting triples are the dataset and are never changed by
any later operation. -/
noncomputable def loadDataSet (rows : List RawRow) (tOffset : ℝ)
    (policy : RVOffsetPolicy) : RVDataSet :=
  ⟨rows.map (fun r => ⟨r.time + tOffset, r.rv - rvOffsetValue policy rows, r.unc⟩)⟩

/-- C9: after construction every exposed time value is the raw file time
plus the constant t_offset supplied at load, whatever the rv policy, and
the uncertainties are exposed unchanged; the model has no operation
producing a modified dataset, so the triples persist. -/
theorem dataset_load_time_offset (rows : List RawRow) (tOffset : ℝ)
    (policy : RVOffsetPolicy) :
    ((loadDataSet rows tOffset policy).obs.map Observation.time =
      rows.map (fun r => r.time + tOffset)) ∧
    ((loadDataSet rows tOffset policy).obs.map Observation.unc =
      rows.map RawRow.unc) := by
  constructor
  · simp only [loadDataSet, List.map_map]
    rfl
  · simp only [loadDataSet, List.map_map]
    rfl

/-- compute_k as written in the tutorial notebook, masses in solar
masses: mass / (mass + 1 solMass) * 2 * pi / period * semia /
(1 - ecc ** 2) ** 0.5.  The inclination argument i is accepted (its
notebook default is pi radians) but never used in the body. -/
noncomputable def compute_k (mass period semia ecc : ℝ) (i : ℝ) : ℝ :=
  mass / (mass + 1) * 2 * Real.pi / period * semia /
    (1 - ecc ^ 2) ^ ((0.5 : ℝ))

/-- C10: compute_k returns m/(m+1) * 2*pi/T * a/sqrt(1-e^2): the result
does not depend on the inclination argument (no sin I factor is applied)
and the main-star mass is the constant 1 solar mass. -/
theorem compute_k_ignores_inclination (mass period semia ecc i j : ℝ)
    (h0 : 0 ≤ ecc) (h1 : ecc < 1) :
    compute_k mass period semia ecc i = compute_k mass period semia ecc j ∧
    compute_k mass period semia ecc i =
      mass / (mass + 1) * (2 * Real.pi / period) *
        (semia / Real.sqrt (1 - ecc ^ 2)) := by
  refine ⟨rfl, ?_⟩
  have hhalf : ((0.5 : ℝ)) = 1 / 2 := by norm_num
  rw [compute_k, hhalf, ← Real.sqrt_eq_rpow]
  ring

/-- Witness for C10 at mass 1, period 1, semi-major axis 1, e = 0 and
inclinations 0 and 1. -/
theorem compute_k_ignores_inclination_witness :
    compute_k 1 1 1 0 0 = compute_k 1 1 1 0 1 ∧
    compute_k 1 1 1 0 0 =
      1 / (1 + 1) * (2 * Real.pi / 1) * (1 / Real.sqrt (1 - 0 ^ 2)) :=
  compute_k_ignores_inclination 1 1 1 0 0 1 (by norm_num) (by norm_num)
